import Mathlib

/-!
# Verification of the `ot_utils` slice accumulator and `.ot` metadata encoder

Shallow embedding of `src/src/lib.rs` (crate `ot_utils`).

Modelling conventions:

* The WAV codec is external (the spec treats it as an opaque, assumed-correct
  service), so an input file is modelled by what the codec would report for it:
  `FileData.notFound` for a missing path, or `FileData.wav ch sr bps int samples`
  for a decodable file with the given spec fields and decoded sample list.
  The `filelist : Vec<PathBuf>` field stores these `FileData` values directly,
  since the filesystem is constant during a run and a path is only ever used to
  re-read the same contents.
* Machine integers (`u32`, `u16`) are `Nat` with explicit `% 2 ^ 32` / `% 2 ^ 16`
  at every point where the Rust code truncates (`as u32`) or where a release-mode
  wrapping addition / multiplication occurs.
* Rust `.unwrap()` on an error (a panic, i.e. abnormal termination) is modelled
  as `Option.none` bubbling out of the computation; `ProcessResult.panic` marks
  the panicking paths of `process_file` itself.
* The bytes written to the concatenated `.wav` file are tracked as a `List Int`
  accumulator (`audio`), so that claims about where each input lands in the
  concatenated output can be stated.
* The `f32` bar computation in `generate_ot_file` is reproduced in exact
  rational/Nat arithmetic (`barsU32`); no claim depends on this field's value,
  only on its width (4 bytes).
-/

namespace OtUtils

/-- `OTSlice` struct from the source (field order as declared there). -/
structure OTSlice where
  loop_point : Nat
  start_point : Nat
  length : Nat
deriving DecidableEq

/-- What the WAV codec reports for an input path: the path is missing, or it
decodes to a file with the given channel count, sample rate, bits per sample,
integer-format flag and sample list. -/
inductive FileData where
  | notFound : FileData
  | wav (channels : Nat) (sampleRate : Nat) (bitsPerSample : Nat)
      (intFormat : Bool) (samples : List Int) : FileData
deriving DecidableEq

/-- The `Slicer` struct from the source. `filelist` stores the (constant)
decoded contents that the stored paths denote. -/
structure Slicer where
  output_folder : String
  output_filename : String
  sample_rate : Nat
  slices : List OTSlice
  filelist : List FileData
  stereo : Bool
  max_file_length : Nat
  start_offset : Nat
  tempo : Nat
deriving DecidableEq

/-- `Slicer::new`. -/
def Slicer.new : Slicer :=
  { slices := []
    filelist := []
    output_folder := ""
    output_filename := "output"
    sample_rate := 44100
    start_offset := 0
    max_file_length := 0
    stereo := false
    tempo := 124 }

/-- `Slicer::clear`: clears the slice vector, resets the sample offset and
resets `sample_rate`/`tempo` to their defaults.  (It does not touch
`max_file_length` or `filelist`.) -/
def Slicer.clear (s : Slicer) : Slicer :=
  { s with slices := [], start_offset := 0, sample_rate := 44100, tempo := 124 }

/-- Result of `Slicer::add_file` (`Result<&str, &str>`). -/
inductive AddResult where
  | ok (msg : String)
  | err (msg : String)
deriving DecidableEq

/-- `Slicer::add_file`: checks existence, then that the decoded spec equals
`{channels = 1, sample_rate = self.sample_rate, bits = 16, int}`; on success
updates `max_file_length` with the sample count and appends the path to
`filelist`.  The error branches perform no mutation, so the unchanged state is
returned alongside the result. -/
def Slicer.add_file (s : Slicer) (f : FileData) : AddResult × Slicer :=
  match f with
  | .notFound => (.err "File not found.", s)
  | .wav ch sr bps intFmt samples =>
    if ch = 1 ∧ sr = s.sample_rate ∧ bps = 16 ∧ intFmt = true then
      let total_samples := samples.length
      let s' := if total_samples > s.max_file_length then
          { s with max_file_length := total_samples } else s
      (.ok "File added succesfully.", { s' with filelist := s'.filelist ++ [f] })
    else
      (.err "Invalid file (invalid sample rate / bit rate / channel number)", s)

/-- `Slicer::fill_wav_file`: writes either exactly `max_file_length` samples
(real samples, zero-filled past the end — and truncated, if longer) in
evenly-spaced mode, or exactly the real samples otherwise; returns
`samples.len() as u32` in both cases.  Modelled as
`(written samples, returned u32)`. -/
def Slicer.fill_wav_file (s : Slicer) (samples : List Int) (evenly_spaced : Bool) :
    List Int × Nat :=
  match evenly_spaced with
  | true =>
    (((List.range s.max_file_length).map fun i => samples.getD i 0),
      samples.length % 2 ^ 32)
  | false => (samples, samples.length % 2 ^ 32)

/-- Outcome of `Slicer::process_file`: `ok` carries the updated state and the
samples appended to the concatenated `.wav` file; `err` carries the unchanged
state; `panic` marks the `.unwrap()` paths (e.g. opening a missing file). -/
inductive ProcessResult where
  | ok (s : Slicer) (written : List Int)
  | err (msg : String) (s : Slicer)
  | panic
deriving DecidableEq

/-- `Slicer::process_file`: capacity guard is `self.slices.len() < 65` as in
the source; on the accepted path it writes the file via `fill_wav_file`,
appends a slice `{start_point = start_offset, length = slice_len,
loop_point = slice_len}` and advances `start_offset` by `slice_len`
(a wrapping `u32` addition). -/
def Slicer.process_file (s : Slicer) (f : FileData) (evenly_spaced : Bool) :
    ProcessResult :=
  if s.slices.length < 65 then
    match f with
    | .notFound => .panic
    | .wav _ _ _ _ samples =>
      let fw := s.fill_wav_file samples evenly_spaced
      .ok
        { s with
          slices := s.slices ++
            [{ loop_point := fw.2, start_point := s.start_offset, length := fw.2 }]
          start_offset := (s.start_offset + fw.2) % 2 ^ 32 }
        fw.1
  else
    .err "No more slice slots available." s

/-- The file-processing loop of `generate_ot_file`
(`for _ in 0..filelist.len() { process_file(filelist.pop().unwrap()) }`),
with the files given in pop order and an accumulator for the samples appended
to the concatenated `.wav` file.  `none` models the panic of the
`.unwrap()` on the `process_file` result (and of panics inside it). -/
def Slicer.processAll (s : Slicer) (files : List FileData) (evenly_spaced : Bool)
    (audio : List Int) : Option (Slicer × List Int) :=
  match files with
  | [] => some (s, audio)
  | f :: rest =>
    match s.process_file f evenly_spaced with
    | .ok s' written => s'.processAll rest evenly_spaced (audio ++ written)
    | .err _ _ => none
    | .panic => none

/-- Big-endian bytes of a `u32` value, as emitted by `Slicer::push_u32`
(`to_le_bytes` pushed in reverse order). -/
def be32 (num : Nat) : List Nat :=
  [num / 2 ^ 24 % 256, num / 2 ^ 16 % 256, num / 2 ^ 8 % 256, num % 256]

/-- Big-endian bytes of a `u16` value, as emitted by `Slicer::push_u16`. -/
def be16 (num : Nat) : List Nat :=
  [num / 2 ^ 8 % 256, num % 256]

/-- `Slicer::push_u32`. -/
def push_u32 (vector : List Nat) (num : Nat) : List Nat :=
  vector ++ be32 num

/-- `Slicer::push_u16`. -/
def push_u16 (vector : List Nat) (num : Nat) : List Nat :=
  vector ++ be16 num

/-- The fixed 23-byte header constant of the `.ot` file. -/
def otHeader : List Nat :=
  [0x46, 0x4F, 0x52, 0x4D, 0x00, 0x00, 0x00, 0x00, 0x44, 0x50, 0x53, 0x31,
   0x53, 0x4D, 0x50, 0x41, 0x00, 0x00, 0x00, 0x00, 0x00, 0x02, 0x00]

/-- The `total_samples` accumulation loop of `generate_ot_file`
(`total_samples += slices[i].length` on a `u32` accumulator, wrapping). -/
def totalSamplesU32 (slices : List OTSlice) : Nat :=
  slices.foldl (fun acc sl => (acc + sl.length) % 2 ^ 32) 0

/-- The bar computation of `generate_ot_file`:
`bars = ((124.0 * total as f32) / ((rate * 60) as f32) + 0.5) as u32 * 25`.
The `f32` arithmetic is reproduced in exact arithmetic:
`floor(124 * t / d + 1/2) = (248 * t + d) / (2 * d)`, the saturating
float-to-`u32` cast becomes `min _ (2 ^ 32 - 1)` (with the `NaN`/`0/0` case
mapping to `0`), and the final `u32` multiplication wraps.  No claim in this
development depends on this field's value, only on its 4-byte width. -/
def barsU32 (total_samples sample_rate : Nat) : Nat :=
  let denom := sample_rate * 60 % 2 ^ 32
  let bars_mult :=
    if denom = 0 then (if total_samples = 0 then 0 else 2 ^ 32 - 1)
    else min ((248 * total_samples + denom) / (2 * denom)) (2 ^ 32 - 1)
  bars_mult * 25 % 2 ^ 32

/-- One iteration of the 64-slot emission loop of `generate_ot_file`: an
occupied slot emits `(start_point, start_point + length, loop_point)`
(the middle sum is a wrapping `u32` addition), an empty slot emits three
zero words. -/
def pushSlot (slices : List OTSlice) (vector : List Nat) (i : Nat) : List Nat :=
  match slices[i]? with
  | some sl =>
    push_u32 (push_u32 (push_u32 vector sl.start_point)
      ((sl.start_point + sl.length) % 2 ^ 32)) sl.loop_point
  | none => push_u32 (push_u32 (push_u32 vector 0) 0) 0

/-- The 64-slot emission loop (`for i in 0..64`). -/
def pushSlices (vector : List Nat) (slices : List OTSlice) : List Nat :=
  (List.range 64).foldl (pushSlot slices) vector

/-- The slot section on its own (the 768 bytes the loop appends). -/
def slotBytes (slices : List OTSlice) : List Nat :=
  pushSlices [] slices

/-- The checksum loop of `generate_ot_file`
(`for i in 16..len { checksum += data[i] }` on a `u16` accumulator,
wrapping). -/
def checksumU16 (file_data : List Nat) : Nat :=
  (file_data.drop 16).foldl (fun acc b => (acc + b) % 2 ^ 16) 0

/-- The `.ot` byte buffer of `generate_ot_file` up to and including the slice
count (everything the checksum is computed over). -/
def otFileData (s : Slicer) : List Nat :=
  let tempo := s.tempo * 6 * 4 % 2 ^ 32
  let total_samples := totalSamplesU32 s.slices
  let bars := barsU32 total_samples s.sample_rate
  let fd := otHeader
  let fd := push_u32 fd tempo
  let fd := push_u32 fd bars
  let fd := push_u32 fd bars
  let fd := push_u32 fd 0
  let fd := push_u32 fd 0
  let fd := push_u16 fd 48
  let fd := fd ++ [255]
  let fd := push_u32 fd 0
  let fd := push_u32 fd total_samples
  let fd := push_u32 fd 0
  let fd := pushSlices fd s.slices
  push_u32 fd (s.slices.length % 2 ^ 32)

/-- The complete `.ot` byte buffer: `otFileData` followed by the 2-byte
checksum over its bytes from offset 16. -/
def otBuffer (s : Slicer) : List Nat :=
  push_u16 (otFileData s) (checksumU16 (otFileData s))

/-- The slice-creation phase of `generate_ot_file`: the existing concatenated
`.wav` file is removed first (so the audio accumulator starts empty), then the
pending files are popped off the END of `filelist` one by one and processed —
i.e. processed in reverse admission order. -/
def Slicer.generate_steps (s : Slicer) (evenly_spaced : Bool) :
    Option (Slicer × List Int) :=
  Slicer.processAll { s with filelist := [] } s.filelist.reverse evenly_spaced []

/-- `Slicer::generate_ot_file`: processes the pending files, encodes the `.ot`
buffer, writes it out and calls `clear`.  The observable outcome is the `.ot`
byte buffer, the samples written to the concatenated `.wav` file and the final
state; `none` models a panic. -/
def Slicer.generate_ot_file (s : Slicer) (evenly_spaced : Bool) :
    Option (List Nat × List Int × Slicer) :=
  match s.generate_steps evenly_spaced with
  | none => none
  | some (s1, audio) => some (otBuffer s1, audio, s1.clear)

/-- Decoded sample list of a file (empty for a missing path). -/
def fileSamples : FileData → List Int
  | .notFound => []
  | .wav _ _ _ _ samples => samples

/-- Real (decoded) sample count of a file. -/
def fileLen (f : FileData) : Nat := (fileSamples f).length

/-- The samples `fill_wav_file` appends to the concatenated `.wav` file for
one input, given the padding width `maxLen` in force. -/
def emitted (maxLen : Nat) (evenly_spaced : Bool) (f : FileData) : List Int :=
  if evenly_spaced then (List.range maxLen).map fun i => (fileSamples f).getD i 0
  else fileSamples f

/-- Folding `add_file` over a list of inputs, keeping the state of each call
(as a caller that ignores the per-file results would). -/
def addAll (s : Slicer) (files : List FileData) : Slicer :=
  files.foldl (fun st f => (st.add_file f).2) s

end OtUtils

namespace OtUtils

/-! ## Structural lemmas about the byte buffer -/

theorem be32_length (n : Nat) : (be32 n).length = 4 := rfl

theorem be16_length (n : Nat) : (be16 n).length = 2 := rfl

theorem otHeader_length : otHeader.length = 23 := rfl

theorem pushSlot_append (slices : List OTSlice) (a b : List Nat) (i : Nat) :
    pushSlot slices (a ++ b) i = a ++ pushSlot slices b i := by
  cases h : slices[i]? <;> simp [pushSlot, h, push_u32]

theorem foldl_pushSlot_append (slices : List OTSlice) (idx : List Nat)
    (a b : List Nat) :
    idx.foldl (pushSlot slices) (a ++ b) = a ++ idx.foldl (pushSlot slices) b := by
  induction idx generalizing b with
  | nil => rfl
  | cons i rest ih => simp only [List.foldl_cons, pushSlot_append, ih]

theorem pushSlices_eq (v : List Nat) (slices : List OTSlice) :
    pushSlices v slices = v ++ slotBytes slices := by
  have h := foldl_pushSlot_append slices (List.range 64) v []
  simpa [pushSlices, slotBytes] using h

theorem pushSlot_length (slices : List OTSlice) (v : List Nat) (i : Nat) :
    (pushSlot slices v i).length = v.length + 12 := by
  cases h : slices[i]? <;> simp [pushSlot, h, push_u32, be32]

theorem foldl_pushSlot_length (slices : List OTSlice) (idx : List Nat)
    (v : List Nat) :
    (idx.foldl (pushSlot slices) v).length = v.length + 12 * idx.length := by
  induction idx generalizing v with
  | nil => simp
  | cons i rest ih =>
    simp only [List.foldl_cons, ih, pushSlot_length, List.length_cons]
    omega

theorem slotBytes_length (slices : List OTSlice) : (slotBytes slices).length = 768 := by
  simp [slotBytes, pushSlices, foldl_pushSlot_length]

theorem otBuffer_decomp (s : Slicer) :
    otBuffer s =
      otHeader ++ be32 (s.tempo * 6 * 4 % 2 ^ 32)
        ++ be32 (barsU32 (totalSamplesU32 s.slices) s.sample_rate)
        ++ be32 (barsU32 (totalSamplesU32 s.slices) s.sample_rate)
        ++ be32 0 ++ be32 0 ++ be16 48 ++ [255] ++ be32 0
        ++ be32 (totalSamplesU32 s.slices) ++ be32 0
        ++ slotBytes s.slices ++ be32 (s.slices.length % 2 ^ 32)
        ++ be16 (checksumU16 (otFileData s)) := by
  simp only [otBuffer, otFileData, push_u32, push_u16, pushSlices_eq,
    List.append_assoc]

theorem otFileData_length (s : Slicer) : (otFileData s).length = 830 := by
  simp [otFileData, push_u32, push_u16, pushSlices_eq, be32_length, be16_length,
    slotBytes_length, otHeader_length]

theorem otBuffer_length (s : Slicer) : (otBuffer s).length = 832 := by
  simp [otBuffer, push_u16, otFileData_length, be16_length]

theorem otBuffer_take_830 (s : Slicer) : (otBuffer s).take 830 = otFileData s := by
  show (otFileData s ++ be16 (checksumU16 (otFileData s))).take 830 = otFileData s
  exact List.take_left' (otFileData_length s)

theorem otBuffer_drop_830 (s : Slicer) :
    (otBuffer s).drop 830 = be16 (checksumU16 (otFileData s)) := by
  show (otFileData s ++ be16 (checksumU16 (otFileData s))).drop 830 = _
  exact List.drop_left' (otFileData_length s)

theorem otBuffer_take_23 (s : Slicer) : (otBuffer s).take 23 = otHeader := by
  rw [otBuffer_decomp]
  simp only [List.append_assoc]
  exact List.take_left' otHeader_length

theorem otBuffer_tempo_field (s : Slicer) :
    ((otBuffer s).drop 23).take 4 = be32 (s.tempo * 6 * 4 % 2 ^ 32) := by
  rw [otBuffer_decomp]
  simp only [List.append_assoc]
  rw [List.drop_left' otHeader_length]
  exact List.take_left' (be32_length _)

theorem otBuffer_drop_50 (s : Slicer) :
    (otBuffer s).drop 50 =
      be32 (totalSamplesU32 s.slices) ++ be32 0 ++ slotBytes s.slices
        ++ be32 (s.slices.length % 2 ^ 32)
        ++ be16 (checksumU16 (otFileData s)) := by
  rw [otBuffer_decomp]
  simp only [List.append_assoc]
  rw [show (50 : Nat) = 23 + 27 from rfl, ← List.drop_drop,
    List.drop_left' otHeader_length]
  rw [show (27 : Nat) = 4 + 23 from rfl, ← List.drop_drop,
    List.drop_left' (be32_length _)]
  rw [show (23 : Nat) = 4 + 19 from rfl, ← List.drop_drop,
    List.drop_left' (be32_length _)]
  rw [show (19 : Nat) = 4 + 15 from rfl, ← List.drop_drop,
    List.drop_left' (be32_length _)]
  rw [show (15 : Nat) = 4 + 11 from rfl, ← List.drop_drop,
    List.drop_left' (be32_length _)]
  rw [show (11 : Nat) = 4 + 7 from rfl, ← List.drop_drop,
    List.drop_left' (be32_length _)]
  rw [show (7 : Nat) = 2 + 5 from rfl, ← List.drop_drop,
    List.drop_left' (be16_length _)]
  rw [show (5 : Nat) = 1 + 4 from rfl, ← List.drop_drop,
    List.drop_left' (show ([255] : List Nat).length = 1 from rfl)]
  rw [List.drop_left' (be32_length _)]

theorem otBuffer_trim_end_field (s : Slicer) :
    ((otBuffer s).drop 50).take 4 = be32 (totalSamplesU32 s.slices) := by
  rw [otBuffer_drop_50]
  simp only [List.append_assoc]
  exact List.take_left' (be32_length _)

theorem otBuffer_drop_58 (s : Slicer) :
    (otBuffer s).drop 58 =
      slotBytes s.slices ++ be32 (s.slices.length % 2 ^ 32)
        ++ be16 (checksumU16 (otFileData s)) := by
  rw [show (58 : Nat) = 50 + 8 from rfl, ← List.drop_drop, otBuffer_drop_50]
  simp only [List.append_assoc]
  rw [show (8 : Nat) = 4 + 4 from rfl, ← List.drop_drop,
    List.drop_left' (be32_length _), List.drop_left' (be32_length _)]

theorem otBuffer_slot_field (s : Slicer) :
    ((otBuffer s).drop 58).take 768 = slotBytes s.slices := by
  rw [otBuffer_drop_58]
  simp only [List.append_assoc]
  exact List.take_left' (slotBytes_length _)

theorem otBuffer_count_field (s : Slicer) :
    ((otBuffer s).drop 826).take 4 = be32 (s.slices.length % 2 ^ 32) := by
  rw [show (826 : Nat) = 58 + 768 from rfl, ← List.drop_drop, otBuffer_drop_58]
  simp only [List.append_assoc]
  rw [List.drop_left' (slotBytes_length _)]
  exact List.take_left' (be32_length _)

/-! ## Arithmetic lemmas about the wrapping accumulators -/

theorem foldl_add_mod {α : Type} (m : Nat) (hm : 0 < m) (g : α → Nat)
    (l : List α) (a : Nat) (ha : a < m) :
    l.foldl (fun acc x => (acc + g x) % m) a = (a + (l.map g).sum) % m := by
  induction l generalizing a with
  | nil => simpa using (Nat.mod_eq_of_lt ha).symm
  | cons x rest ih =>
    simp only [List.foldl_cons, List.map_cons, List.sum_cons]
    rw [ih _ (Nat.mod_lt _ hm), Nat.mod_add_mod, Nat.add_assoc]

theorem checksumU16_eq_sum (l : List Nat) :
    checksumU16 l = (l.drop 16).sum % 2 ^ 16 := by
  have h := foldl_add_mod (2 ^ 16) (by norm_num) id (l.drop 16) 0 (by norm_num)
  simpa [checksumU16] using h

theorem totalSamplesU32_eq_sum (slices : List OTSlice) :
    totalSamplesU32 slices = (slices.map OTSlice.length).sum % 2 ^ 32 := by
  have h := foldl_add_mod (2 ^ 32) (by norm_num) OTSlice.length slices 0 (by norm_num)
  simpa [totalSamplesU32] using h

end OtUtils

namespace OtUtils

/-! ## Behaviour of the processing loop -/

theorem fill_wav_file_snd (s : Slicer) (samples : List Int) (e : Bool) :
    (s.fill_wav_file samples e).2 = samples.length % 2 ^ 32 := by
  cases e <;> rfl

theorem fill_wav_file_fst (s : Slicer) (ch sr bps : Nat) (fmt : Bool)
    (samples : List Int) (e : Bool) :
    (s.fill_wav_file samples e).1
      = emitted s.max_file_length e (.wav ch sr bps fmt samples) := by
  cases e <;> simp [Slicer.fill_wav_file, emitted, fileSamples]

/-- Everything the loop of `generate_ot_file` does to the state on a
non-panicking run: it appends one slice per processed file whose `length`
is that file's real sample count (truncated to `u32`), appends the per-file
emitted samples (padded when evenly spaced) to the audio in processing
order, and touches neither `max_file_length`, `sample_rate`, `tempo` nor
`filelist`; every appended slice has `loop_point = length`. -/
theorem processAll_spec (e : Bool) :
    ∀ (files : List FileData) (s : Slicer) (audio : List Int) (s1 : Slicer)
      (a1 : List Int),
      s.processAll files e audio = some (s1, a1) →
      s1.slices.map OTSlice.length
          = s.slices.map OTSlice.length ++ files.map (fun f => fileLen f % 2 ^ 32) ∧
      a1 = audio ++ files.flatMap (emitted s.max_file_length e) ∧
      s1.max_file_length = s.max_file_length ∧
      s1.sample_rate = s.sample_rate ∧
      s1.tempo = s.tempo ∧
      s1.filelist = s.filelist ∧
      (∀ sl ∈ s1.slices, sl ∈ s.slices ∨ sl.loop_point = sl.length) := by
  intro files
  induction files with
  | nil =>
    intro s audio s1 a1 h
    simp only [Slicer.processAll, Option.some.injEq, Prod.mk.injEq] at h
    obtain ⟨h1, h2⟩ := h
    subst h1; subst h2
    exact ⟨by simp, by simp, rfl, rfl, rfl, rfl, fun sl hsl => Or.inl hsl⟩
  | cons f rest ih =>
    intro s audio s1 a1 h
    by_cases h65 : s.slices.length < 65
    · cases f with
      | notFound =>
        simp [Slicer.processAll, Slicer.process_file, h65] at h
      | wav ch sr bps fmt samples =>
        simp only [Slicer.processAll, Slicer.process_file, if_pos h65] at h
        obtain ⟨hLen, hAudio, hMax, hRate, hTempo, hFiles, hLoop⟩ := ih _ _ _ _ h
        refine ⟨?_, ?_, ?_, ?_, ?_, ?_, ?_⟩
        · rw [hLen]
          simp [fill_wav_file_snd, fileLen, fileSamples]
        · rw [hAudio]
          simp only [List.flatMap_cons, List.append_assoc]
          congr 1
          rw [fill_wav_file_fst s ch sr bps fmt samples e]
        · simpa using hMax
        · simpa using hRate
        · simpa using hTempo
        · simpa using hFiles
        · intro sl hsl
          rcases hLoop sl hsl with hmem | hl
          · simp only [List.mem_append, List.mem_singleton] at hmem
            rcases hmem with hmem | hmem
            · exact Or.inl hmem
            · subst hmem; exact Or.inr rfl
          · exact Or.inr hl
    · simp [Slicer.processAll, Slicer.process_file, h65] at h

/-- With at least `66 - slices.len()` pending files (and at least one), the
loop of `generate_ot_file` necessarily hits the capacity branch of
`process_file` (or a panic) and the surrounding `.unwrap()` aborts: the run
never returns a value. -/
theorem processAll_none_of_many (e : Bool) :
    ∀ (files : List FileData) (s : Slicer) (audio : List Int),
      66 ≤ files.length + s.slices.length → 1 ≤ files.length →
      s.processAll files e audio = none := by
  intro files
  induction files with
  | nil => intro s audio h h1; simp at h1
  | cons f rest ih =>
    intro s audio h h1
    by_cases h65 : s.slices.length < 65
    · cases f with
      | notFound => simp [Slicer.processAll, Slicer.process_file, h65]
      | wav ch sr bps fmt samples =>
        simp only [Slicer.processAll, Slicer.process_file, if_pos h65]
        apply ih
        · simp only [List.length_append, List.length_cons, List.length_singleton]
          simp only [List.length_cons] at h
          omega
        · by_contra hr
          simp only [not_le, Nat.lt_one_iff, List.length_eq_zero] at hr
          subst hr
          simp only [List.length_cons, List.length_nil] at h
          omega
    · simp [Slicer.processAll, Slicer.process_file, h65]

end OtUtils

namespace OtUtils

/-! ## Claim C4 — checksum field -/

/-- Claim C4: the trailing 2-byte checksum field of the generated metadata
buffer equals the sum of all buffer bytes from offset 16 up to (but excluding)
the checksum field itself, reduced modulo `2 ^ 16`, for every slice list,
tempo and sample rate (i.e. for every `Slicer` state the encoder can see). -/
theorem claim4_checksum (s : Slicer) :
    (otBuffer s).drop 830
      = be16 ((((otBuffer s).take 830).drop 16).sum % 2 ^ 16) := by
  rw [otBuffer_drop_830, otBuffer_take_830, checksumU16_eq_sum]

/-! ## Claim C5 — buffer layout -/

set_option maxRecDepth 20000 in
/-- Claim C5 counterexample: the buffer generated from a fresh `Slicer` (zero
slices) has total length 832, which refutes the claimed fixed total length of
874 bytes. -/
theorem claim5_total_length_counterexample :
    ((Slicer.new.generate_ot_file false).map fun r => r.1.length) = some 832
      ∧ (832 : Nat) ≠ 874 := by
  exact ⟨by decide, by decide⟩

/-- Claim C5 (amended): the metadata buffer always has the exact fixed total
length of 832 bytes (not 874), for every slice list, with the fields at the
offsets given in the layout table: magic at 0..23, tempo at 23, the 64 slots
of 12 bytes at 58, the slice count at 826 and the checksum at 830. -/
theorem claim5_layout (s : Slicer) :
    (otBuffer s).length = 832 ∧
    (otBuffer s).take 23 = otHeader ∧
    ((otBuffer s).drop 23).take 4 = be32 (s.tempo * 6 * 4 % 2 ^ 32) ∧
    ((otBuffer s).drop 58).take 768 = slotBytes s.slices ∧
    ((otBuffer s).drop 826).take 4 = be32 (s.slices.length % 2 ^ 32) ∧
    (otBuffer s).drop 830 = be16 (checksumU16 (otFileData s)) :=
  ⟨otBuffer_length s, otBuffer_take_23 s, otBuffer_tempo_field s,
    otBuffer_slot_field s, otBuffer_count_field s, otBuffer_drop_830 s⟩

/-! ## Claim C7 — failed add leaves the state unchanged -/

/-- Claim C7: when `add_file` rejects an input (format mismatch or
file-not-found), it returns the error and leaves the whole `Slicer` state —
pending file list, slice list, `max_file_length`, `start_offset` — exactly as
before the call. -/
theorem claim7_add_error_no_mutation (s : Slicer) (f : FileData) (m : String)
    (h : (s.add_file f).1 = .err m) : (s.add_file f).2 = s := by
  cases f with
  | notFound => rfl
  | wav ch sr bps fmt samples =>
    by_cases hspec : ch = 1 ∧ sr = s.sample_rate ∧ bps = 16 ∧ fmt = true
    · simp [Slicer.add_file, hspec] at h
    · simp [Slicer.add_file, hspec]

/-- Witness for C7: rejecting a stereo (2-channel) file at a fresh `Slicer`
leaves the state equal to `Slicer.new`. -/
theorem claim7_witness :
    (Slicer.new.add_file (.wav 2 44100 16 true [0])).2 = Slicer.new :=
  claim7_add_error_no_mutation Slicer.new (.wav 2 44100 16 true [0])
    "Invalid file (invalid sample rate / bit rate / channel number)" (by decide)

end OtUtils

namespace OtUtils

/-! ## Claim C1 — evenly-spaced cursor advance -/

/-- First input of the C1 failing batch: 4 real samples. -/
def fileC1a : FileData := .wav 1 44100 16 true [1, 2, 3, 4]

/-- Second input of the C1 failing batch: 2 real samples. -/
def fileC1b : FileData := .wav 1 44100 16 true [9, 9]

/-- State after admitting the two C1 inputs (`max_file_length = 4`). -/
def slicerC1 : Slicer := addAll Slicer.new [fileC1a, fileC1b]

set_option maxRecDepth 20000 in
/-- Claim C1 evaluated at the failing input: in evenly-spaced mode, with
accepted inputs of 2 and 4 real samples (`max_file_length = 4`), the run
writes each input padded to 4 samples into the audio, yet the second created
slice has `start_point = 2` — the cursor advanced by the first slice's REAL
length, not by `max_file_length`; the claimed start points `[0, 4]` are not
produced. -/
theorem claim1_evenly_spaced_failing :
    slicerC1.max_file_length = 4 ∧
    ((slicerC1.generate_steps true).map fun r =>
        (r.1.slices.map fun sl => (sl.start_point, sl.length), r.2))
      = some ([(0, 2), (2, 4)], [9, 9, 0, 0, 1, 2, 3, 4]) ∧
    ((slicerC1.generate_steps true).map fun r =>
        r.1.slices.map fun sl => sl.start_point) ≠ some [0, 4] := by
  exact ⟨by decide, by decide, by decide⟩

/-! ## Claim C2 — slice capacity -/

/-- A minimal valid one-sample input for the capacity experiment. -/
def fileC2 : FileData := .wav 1 44100 16 true [0]

/-- State after 65 successful admissions of `fileC2`. -/
def slicerC2 : Slicer := addAll Slicer.new (List.replicate 65 fileC2)

set_option maxRecDepth 100000 in
/-- Claim C2 evaluated at the failing input: a batch of 65 valid files is
accepted in full — the 65th file is NOT rejected (the source guard is
`slices.len() < 65`), so 65 slices are created in one batch, and the
generated buffer then records slice count 65 at offset 826 even though the
slot table holds only 64 slots. -/
theorem claim2_capacity_failing :
    slicerC2.filelist.length = 65 ∧
    ((slicerC2.generate_steps false).map fun r => r.1.slices.length) = some 65 ∧
    ((slicerC2.generate_ot_file false).map fun r => (r.1.drop 826).take 4)
      = some [0, 0, 0, 65] := by
  exact ⟨by decide, by decide, by decide⟩

/-! ## Claim C3 — processing order -/

/-- First admitted C3 input: 1 real sample. -/
def fileC3a : FileData := .wav 1 44100 16 true [1]

/-- Second admitted C3 input: 2 real samples. -/
def fileC3b : FileData := .wav 1 44100 16 true [2, 2]

/-- State after admitting the two C3 inputs in order `a`, `b`. -/
def slicerC3 : Slicer := addAll Slicer.new [fileC3a, fileC3b]

set_option maxRecDepth 20000 in
/-- Claim C3 counterexample: with inputs of 1 and 2 samples admitted in that
order, finalize creates the 2-sample slice FIRST (slice lengths `[2, 1]`,
audio `[2, 2, 1]`) — the loop pops files off the END of `filelist` — refuting
the claim that the i-th slice / audio segment corresponds to the i-th file
passed to `add_file` (which would give `([1, 2], [1, 2, 2])`). -/
theorem claim3_admission_order_counterexample :
    ((slicerC3.generate_steps false).map fun r =>
        (r.1.slices.map OTSlice.length, r.2)) = some ([2, 1], [2, 2, 1]) ∧
    ((slicerC3.generate_steps false).map fun r =>
        (r.1.slices.map OTSlice.length, r.2)) ≠ some ([1, 2], [1, 2, 2]) := by
  exact ⟨by decide, by decide⟩

/-- Claim C3 (amended): finalize processes the pending input files in REVERSE
admission order: on every non-panicking run from a state with no leftover
slices, the i-th created slice has the real sample count of the (n-1-i)-th
admitted file as its `length` (truncated to `u32`), and the concatenated
audio is the per-file emitted samples in that same reversed order. -/
theorem claim3_reverse_order (s : Slicer) (e : Bool) (s1 : Slicer)
    (a1 : List Int) (h : s.generate_steps e = some (s1, a1))
    (h0 : s.slices = []) :
    s1.slices.map OTSlice.length
        = s.filelist.reverse.map (fun f => fileLen f % 2 ^ 32) ∧
    a1 = s.filelist.reverse.flatMap (emitted s.max_file_length e) := by
  simp only [Slicer.generate_steps] at h
  obtain ⟨hLen, hAudio, _⟩ := processAll_spec e s.filelist.reverse _ [] s1 a1 h
  constructor
  · rw [hLen]
    simp [h0]
  · rw [hAudio]
    simp

/-- The state produced by running finalize on `slicerC3`. -/
def slicerC3run : Slicer :=
  { output_folder := "", output_filename := "output", sample_rate := 44100,
    slices := [⟨2, 0, 2⟩, ⟨1, 2, 1⟩], filelist := [], stereo := false,
    max_file_length := 2, start_offset := 3, tempo := 124 }

set_option maxRecDepth 20000 in
/-- Witness for the amended C3 at a concrete two-file batch. -/
theorem claim3_reverse_order_witness :
    slicerC3run.slices.map OTSlice.length
        = slicerC3.filelist.reverse.map (fun f => fileLen f % 2 ^ 32) ∧
    ([2, 2, 1] : List Int)
        = slicerC3.filelist.reverse.flatMap (emitted slicerC3.max_file_length false) :=
  claim3_reverse_order slicerC3 false slicerC3run [2, 2, 1] (by decide) (by decide)

/-! ## Claim C6 — conservation of real sample counts -/

/-- Claim C6: for every non-panicking finalize run from a clean state whose
real total sample count is `u32`-representable, the sum of the created
slices' `length` fields equals the sum of the real sample counts of the
admitted inputs — identically in evenly-spaced and non-evenly-spaced mode —
and that sum is also the value emitted in the trim-end field (offset 50) of
the metadata buffer. -/
theorem claim6_length_sum (s : Slicer) (e : Bool) (s1 : Slicer)
    (a1 : List Int) (h : s.generate_steps e = some (s1, a1))
    (h0 : s.slices = []) (hb : (s.filelist.map fileLen).sum < 2 ^ 32) :
    (s1.slices.map OTSlice.length).sum = (s.filelist.map fileLen).sum ∧
    ((otBuffer s1).drop 50).take 4 = be32 ((s.filelist.map fileLen).sum) := by
  simp only [Slicer.generate_steps] at h
  obtain ⟨hLen, _⟩ := processAll_spec e s.filelist.reverse _ [] s1 a1 h
  have hmap : s.filelist.map (fun f => fileLen f % 2 ^ 32)
      = s.filelist.map fileLen := by
    apply List.map_congr_left
    intro f hf
    exact Nat.mod_eq_of_lt (lt_of_le_of_lt
      (List.single_le_sum (fun x _ => Nat.zero_le x) _
        (List.mem_map_of_mem _ hf)) hb)
  have hLen' : s1.slices.map OTSlice.length
      = s.slices.map OTSlice.length
        ++ s.filelist.reverse.map (fun f => fileLen f % 2 ^ 32) := hLen
  have hA : (s1.slices.map OTSlice.length).sum = (s.filelist.map fileLen).sum := by
    rw [hLen', h0]
    simp only [List.map_nil, List.nil_append]
    rw [List.map_reverse, List.sum_reverse, hmap]
  refine ⟨hA, ?_⟩
  rw [otBuffer_trim_end_field, totalSamplesU32_eq_sum, hA, Nat.mod_eq_of_lt hb]

/-- C6 witness inputs: files of 1 and 2 samples. -/
def slicerC6 : Slicer :=
  addAll Slicer.new [.wav 1 44100 16 true [5], .wav 1 44100 16 true [6, 6]]

/-- The state produced by running finalize on `slicerC6`. -/
def slicerC6run : Slicer :=
  { output_folder := "", output_filename := "output", sample_rate := 44100,
    slices := [⟨2, 0, 2⟩, ⟨1, 2, 1⟩], filelist := [], stereo := false,
    max_file_length := 2, start_offset := 3, tempo := 124 }

set_option maxRecDepth 20000 in
/-- Witness for C6 at a concrete two-file batch (total 3 real samples). -/
theorem claim6_length_sum_witness :
    (slicerC6run.slices.map OTSlice.length).sum
        = (slicerC6.filelist.map fileLen).sum ∧
    ((otBuffer slicerC6run).drop 50).take 4
        = be32 ((slicerC6.filelist.map fileLen).sum) :=
  claim6_length_sum slicerC6 false slicerC6run [6, 6, 5] (by decide) (by decide)
    (by decide)

end OtUtils

namespace OtUtils

/-! ## Claim C8 — state after a successful finalize -/

/-- State after admitting one 2-sample file at a fresh `Slicer`. -/
def slicerC8 : Slicer := (Slicer.new.add_file (.wav 1 44100 16 true [7, 7])).2

set_option maxRecDepth 20000 in
/-- Claim C8 counterexample: after a successful `generate_ot_file` from a
batch whose longest file had 2 samples, the final state still has
`max_file_length = 2` — it is NOT reset (fresh default would be 0), refuting
the claim that the entire run state is reset. -/
theorem claim8_reset_counterexample :
    ((slicerC8.generate_ot_file false).map fun r => r.2.2.max_file_length)
      = some 2 ∧ (2 : Nat) ≠ 0 := by
  exact ⟨by decide, by decide⟩

/-- Claim C8 (amended): after every successful finalize — whose returned
final state is `s2.clear` for the state `s2` reached by the processing loop —
the slice list is empty, `start_offset` is 0, `sample_rate` and `tempo` are
back at their defaults (44100 and 124) and the pending file list is empty —
but `max_file_length` is NOT reset: it keeps exactly the value it had before
the call and carries over into the next batch. -/
theorem claim8_state_after_generate (s : Slicer) (e : Bool) (s2 : Slicer)
    (a : List Int) (h : s.generate_steps e = some (s2, a)) :
    s.generate_ot_file e = some (otBuffer s2, a, s2.clear) ∧
    s2.clear.slices = [] ∧ s2.clear.start_offset = 0 ∧
    s2.clear.sample_rate = 44100 ∧ s2.clear.tempo = 124 ∧
    s2.clear.filelist = [] ∧
    s2.clear.max_file_length = s.max_file_length := by
  obtain ⟨-, -, hMax, -, -, hFiles, -⟩ :=
    processAll_spec e s.filelist.reverse { s with filelist := [] } [] s2 a h
  have hF : s2.filelist = [] := hFiles
  have hM : s2.max_file_length = s.max_file_length := hMax
  refine ⟨?_, rfl, rfl, rfl, rfl, hF, hM⟩
  simp only [Slicer.generate_ot_file, h]

/-- The state just before `clear` in the `slicerC8` finalize run. -/
def slicerC8run : Slicer :=
  { output_folder := "", output_filename := "output", sample_rate := 44100,
    slices := [⟨2, 0, 2⟩], filelist := [], stereo := false,
    max_file_length := 2, start_offset := 2, tempo := 124 }

set_option maxRecDepth 20000 in
/-- Witness for the amended C8 at a concrete one-file batch. -/
theorem claim8_witness :
    slicerC8.generate_ot_file false
        = some (otBuffer slicerC8run, [7, 7], slicerC8run.clear) ∧
    slicerC8run.clear.slices = [] ∧ slicerC8run.clear.start_offset = 0 ∧
    slicerC8run.clear.sample_rate = 44100 ∧ slicerC8run.clear.tempo = 124 ∧
    slicerC8run.clear.filelist = [] ∧
    slicerC8run.clear.max_file_length = slicerC8.max_file_length :=
  claim8_state_after_generate slicerC8 false slicerC8run [7, 7] (by decide)

/-! ## Claim C9 — error reporting versus panics -/

/-- State after 66 successful admissions (no capacity check exists in
`add_file`, so all 66 are accepted into the pending list). -/
def slicerC9big : Slicer :=
  addAll Slicer.new (List.replicate 66 (.wav 1 44100 16 true [0]))

set_option maxRecDepth 100000 in
/-- Claim C9 counterexample: with 66 admitted files, `generate_ot_file`
terminates abnormally (the capacity error returned by `process_file` for the
66th file is consumed by `.unwrap()`, modelled as `none`) instead of
reporting the capacity error as a result value. -/
theorem claim9_panic_counterexample :
    slicerC9big.generate_ot_file false = none ∧
    slicerC9big.filelist.length = 66 := by
  exact ⟨by decide, by decide⟩

/-- Claim C9 (amended): `add_file` reports NotFound / FormatMismatch
synchronously as result values, but errors detected inside
`generate_ot_file` abort via panic: whenever at least 66 files are pending,
the capacity error raised during the processing loop is unwrapped and the
call terminates abnormally (`none`) rather than returning an error value. -/
theorem claim9_generate_panics_on_capacity (s : Slicer) (e : Bool)
    (h : 66 ≤ s.filelist.length) : s.generate_ot_file e = none := by
  have hnone :
      Slicer.processAll { s with filelist := [] } s.filelist.reverse e [] = none := by
    apply processAll_none_of_many
    · simp only [List.length_reverse]
      omega
    · simp only [List.length_reverse]
      omega
  simp only [Slicer.generate_ot_file, Slicer.generate_steps, hnone]

/-- A state with 70 pending one-sample files. -/
def slicerC9w : Slicer :=
  { Slicer.new with filelist := List.replicate 70 (.wav 1 44100 16 true [1]) }

/-- Witness for the amended C9: 70 pending files make `generate_ot_file`
terminate abnormally. -/
theorem claim9_witness : slicerC9w.generate_ot_file true = none :=
  claim9_generate_panics_on_capacity slicerC9w true (by decide)

/-! ## Claim C10 — loop points of created slices -/

/-- Claim C10: every slice created during finalize has `loop_point` equal to
its `length` (the real sample count of its input), in both modes; no
"no loop" sentinel is ever stored in a created slice. -/
theorem claim10_loop_point (s : Slicer) (e : Bool) (s1 : Slicer)
    (a1 : List Int) (h : s.generate_steps e = some (s1, a1))
    (h0 : s.slices = []) :
    ∀ sl ∈ s1.slices, sl.loop_point = sl.length := by
  simp only [Slicer.generate_steps] at h
  obtain ⟨-, -, -, -, -, -, hLoop⟩ :=
    processAll_spec e s.filelist.reverse _ [] s1 a1 h
  intro sl hsl
  rcases hLoop sl hsl with hmem | hl
  · have hmem' : sl ∈ s.slices := hmem
    rw [h0] at hmem'
    simp at hmem'
  · exact hl

/-- State after admitting one 3-sample file. -/
def slicerC10 : Slicer := addAll Slicer.new [.wav 1 44100 16 true [4, 4, 4]]

/-- The state produced by running finalize on `slicerC10`. -/
def slicerC10run : Slicer :=
  { output_folder := "", output_filename := "output", sample_rate := 44100,
    slices := [⟨3, 0, 3⟩], filelist := [], stereo := false,
    max_file_length := 3, start_offset := 3, tempo := 124 }

set_option maxRecDepth 20000 in
/-- Witness for C10 at a concrete one-file batch. -/
theorem claim10_witness :
    (⟨3, 0, 3⟩ : OTSlice).loop_point = (⟨3, 0, 3⟩ : OTSlice).length :=
  claim10_loop_point slicerC10 false slicerC10run [4, 4, 4] (by decide)
    (by decide) ⟨3, 0, 3⟩ (by decide)

end OtUtils
